import Mathlib

/-!
Shallow embedding of the ByteRize backend (src/main.py, src/schemas.py):
order placement (create_order), product deletion (delete_product),
login, and order listing (list_orders), over a document-store state
modelled as Lean lists. Python floats (prices, totals) are modelled as
exact rationals; Python round(x, 2) as round-half-to-even over rationals;
bson ObjectId parsing as a 24-hex-character check; datetime values as
natural-number timestamps with isoformat an injective rendering to strings.
-/

namespace ByteRize

/-- HTTP error raised via fastapi HTTPException: status code and detail. -/
structure HErr where
  status : Nat
  detail : String
deriving DecidableEq, Repr

/-- Document of the "product" collection (schemas.py Product). -/
structure Product where
  _id : Nat
  title : String
  description : Option String
  price : ℚ
  category : String
  image : Option String
  in_stock : Bool
  stock_qty : Int
  created_at : Nat
  updated_at : Nat
deriving DecidableEq, Repr

/-- Order line item (main.py OrderItem). quantity is validated ge 1. -/
structure OrderItem where
  product_id : String
  title : String
  price : ℚ
  quantity : Nat
deriving DecidableEq, Repr

/-- Request body of POST /api/orders (main.py OrderIn). -/
structure OrderIn where
  user_email : String
  items : List OrderItem
  total : ℚ
deriving DecidableEq, Repr

/-- Document of the "order" collection as persisted by create_order. -/
structure OrderDoc where
  _id : Nat
  user_email : String
  items : List OrderItem
  total : ℚ
  status : String
  created_at : Nat
  updated_at : Nat
deriving DecidableEq, Repr

/-- Response shape produced by oid_to_str on an order document: the
internal _id becomes the string field id, datetimes become strings. -/
structure OrderOut where
  id : String
  user_email : String
  items : List OrderItem
  total : ℚ
  status : String
  created_at : String
  updated_at : String
deriving DecidableEq, Repr

/-- Document of the "user" collection (schemas.py User). -/
structure UserDoc where
  _id : Nat
  name : String
  email : String
  password : String
  role : String
  approved : Bool
deriving DecidableEq, Repr

/-- Request body of POST /api/users/login (main.py LoginReq). -/
structure LoginReq where
  email : String
  password : String
deriving DecidableEq, Repr

/-- Response of a successful login. -/
structure LoginOut where
  email : String
  name : String
  role : String
  approved : Bool
deriving DecidableEq, Repr

/-- The document store visible to the order workflow: the product and
order collections, plus the generator of the next fresh ObjectId that
insert_one assigns. -/
structure DB where
  products : List Product
  orders : List OrderDoc
  nextId : Nat
deriving DecidableEq, Repr

/-- Hexadecimal digit test, as accepted by bson ObjectId strings. -/
def isHexChar (c : Char) : Bool :=
  c.isDigit || (('a' ≤ c) && (c ≤ 'f')) || (('A' ≤ c) && (c ≤ 'F'))

/-- Numeric value of a hex digit. -/
def hexVal (c : Char) : Nat :=
  if c.isDigit then c.toNat - ('0').toNat
  else if 'a' ≤ c then c.toNat - ('a').toNat + 10
  else c.toNat - ('A').toNat + 10

/-- ObjectId(s) from bson: succeeds exactly on 24-character hex strings
(yielding the encoded id), and raises InvalidId otherwise (modelled as
none). -/
def parseObjectId (s : String) : Option Nat :=
  if s.length == 24 && s.data.all isHexChar then
    some (s.data.foldl (fun a c => 16 * a + hexVal c) 0)
  else none

/-- str(ObjectId): an injective rendering of the id as a string. -/
def oidStr (n : Nat) : String := toString n

/-- datetime.isoformat: an injective ISO-8601 rendering of a timestamp. -/
def isoformat (t : Nat) : String := toString t

/-- oid_to_str (main.py lines 24-34) applied to an order document: the
_id key is replaced by the string field id, and every datetime value is
rendered with isoformat. -/
def orderToOut (d : OrderDoc) : OrderOut :=
  { id := oidStr d._id, user_email := d.user_email, items := d.items,
    total := d.total, status := d.status,
    created_at := isoformat d.created_at,
    updated_at := isoformat d.updated_at }

/-- Floor of a rational as an integer, executably. -/
def qfloor (x : ℚ) : ℤ := Int.fdiv x.num x.den

/-- Python round(x) to the nearest integer with ties to even (banker's
rounding), modelled over exact rationals. -/
def roundHalfEven (x : ℚ) : ℤ :=
  let n := qfloor x
  let f := x - (n : ℚ)
  if f < 1 / 2 then n
  else if 1 / 2 < f then n + 1
  else if n % 2 = 0 then n else n + 1

/-- Python round(x, 2): round at the second decimal place. -/
def pyRound2 (x : ℚ) : ℚ := (roundHalfEven (100 * x) : ℚ) / 100

/-- calc_total of create_order: the sum of price times quantity over the
submitted items (main.py line 205). -/
def calcTotal (items : List OrderItem) : ℚ :=
  (items.map (fun i => i.price * (i.quantity : ℚ))).sum

/-- Filter of the conditional stock update of create_order: the document
has the given _id and stock_qty at least the requested quantity. -/
def condMatch (oid : Nat) (qty : Nat) (p : Product) : Bool :=
  p._id == oid && decide ((qty : Int) ≤ p.stock_qty)

/-- Update applied by the conditional stock update: decrement stock_qty
by the quantity and stamp updated_at. -/
def decProduct (now : Nat) (qty : Nat) (p : Product) : Product :=
  { p with stock_qty := p.stock_qty - (qty : Int), updated_at := now }

/-- update_one semantics: apply the update to the first document matching
the filter, leaving everything else unchanged. -/
def updateFirst (pred : Product → Bool) (f : Product → Product) :
    List Product → List Product
  | [] => []
  | p :: ps => if pred p then f p :: ps else p :: updateFirst pred f ps

/-- delete_one semantics: remove the first document matching the filter. -/
def removeFirst (pred : Product → Bool) : List Product → List Product
  | [] => []
  | p :: ps => if pred p then ps else p :: removeFirst pred ps

/-- Whether delete_one matched (deleted_count = 1). -/
def anyMatch (pred : Product → Bool) (ps : List Product) : Bool :=
  ps.any pred

/-- One iteration of the stock-decrement loop of create_order (main.py
lines 213-220): ObjectId parse failure is swallowed by the except branch
(continue, state unchanged); otherwise the single atomic conditional
update_one is issued. -/
def apply_dec (now : Nat) (item : OrderItem) (products : List Product) :
    List Product :=
  match parseObjectId item.product_id with
  | none => products
  | some oid =>
      updateFirst (condMatch oid item.quantity)
        (decProduct now item.quantity) products

/-- The whole stock-decrement loop, in submission order. -/
def decrementAll (now : Nat) (items : List OrderItem)
    (products : List Product) : List Product :=
  items.foldl (fun ps i => apply_dec now i ps) products

/-- find_one on the order collection by _id. -/
def findOrder (orders : List OrderDoc) (oid : Nat) : Option OrderDoc :=
  orders.find? (fun o => o._id == oid)

/-- The order document built by create_order before insertion (main.py
lines 208-210): the request body extended with status pending and
created_at = updated_at = now. -/
def newOrderDoc (now : Nat) (order : OrderIn) (oid : Nat) : OrderDoc :=
  { _id := oid, user_email := order.user_email,
    items := order.items, total := order.total,
    status := "pending", created_at := now, updated_at := now }

/-- create_order (main.py lines 202-224). Validates the claimed total
against the computed total, runs the best-effort stock-decrement loop,
inserts the order document with status pending and equal timestamps, and
returns the oid_to_str rendering of find_one on the inserted id. The
second component is the resulting store state; on the total-mismatch
error no write occurs, so the incoming state is returned untouched. -/
def create_order (now : Nat) (order : OrderIn) (db : DB) :
    Except HErr (Option OrderOut) × DB :=
  let calc_total := calcTotal order.items
  if pyRound2 calc_total ≠ pyRound2 order.total then
    (Except.error ⟨400, "Total mismatch"⟩, db)
  else
    let products' := decrementAll now order.items db.products
    let doc : OrderDoc := newOrderDoc now order db.nextId
    let orders' := db.orders ++ [doc]
    (Except.ok ((findOrder orders' db.nextId).map orderToOut),
      { products := products', orders := orders', nextId := db.nextId + 1 })

/-- delete_product (main.py lines 135-144). After the admin gate, the
whole body runs inside try/except Exception: an ObjectId parse failure
raises and is caught, and the HTTPException 404 raised on
deleted_count = 0 is itself an Exception so it too is caught; either way
the handler re-raises 400 with detail Invalid product id. The second
component is the resulting product collection. -/
def delete_product (product_id : String) (x_admin : Option String)
    (products : List Product) : Except HErr String × List Product :=
  if x_admin ≠ some ("true") then
    (Except.error ⟨403, "Admin access required"⟩, products)
  else
    match parseObjectId product_id with
    | none => (Except.error ⟨400, "Invalid product id"⟩, products)
    | some oid =>
        if anyMatch (fun p => p._id == oid) products then
          (Except.ok ("ok"), removeFirst (fun p => p._id == oid) products)
        else
          (Except.error ⟨400, "Invalid product id"⟩, products)

/-- find_one on the user collection by email. -/
def findUser (users : List UserDoc) (email : String) : Option UserDoc :=
  users.find? (fun u => u.email == email)

/-- login (main.py lines 169-181): find the user by email, compare the
stored password string directly with the submitted one, then check the
approved flag. -/
def login (req : LoginReq) (users : List UserDoc) : Except HErr LoginOut :=
  match findUser users req.email with
  | none => Except.error ⟨401, "Invalid credentials"⟩
  | some user =>
      if user.password ≠ req.password then
        Except.error ⟨401, "Invalid credentials"⟩
      else if !user.approved then
        Except.error ⟨403, "Account awaiting approval"⟩
      else
        Except.ok { email := user.email, name := user.name,
                    role := user.role, approved := true }

/-- list_orders (main.py lines 227-233): the query gets the user_email
filter only when the email query parameter is supplied and the x_admin
header differs from the literal string true; otherwise the query is
empty and the whole collection is returned. -/
def list_orders (email : Option String) (x_admin : Option String)
    (orders : List OrderDoc) : List OrderOut :=
  let filtered : List OrderDoc :=
    match email with
    | some e =>
        if x_admin ≠ some ("true") then
          orders.filter (fun o => o.user_email == e)
        else orders
    | none => orders
  filtered.map orderToOut

/-! Helper lemmas shared by the claim theorems. -/

lemma qfloor_intCast (n : ℤ) : qfloor (n : ℚ) = n := by
  unfold qfloor
  rw [Rat.num_intCast, Rat.den_intCast]
  exact Int.fdiv_one n

lemma roundHalfEven_intCast (n : ℤ) : roundHalfEven (n : ℚ) = n := by
  unfold roundHalfEven
  rw [qfloor_intCast]
  have hf : (n : ℚ) - (n : ℚ) < 1 / 2 := by norm_num
  simp [hf]

lemma pyRound2_intCast (n : ℤ) : pyRound2 (n : ℚ) = (n : ℚ) := by
  unfold pyRound2
  have h : (100 : ℚ) * (n : ℚ) = ((100 * n : ℤ) : ℚ) := by push_cast; ring
  rw [h, roundHalfEven_intCast]
  push_cast
  ring

lemma pyRound2_natCast (n : ℕ) : pyRound2 (n : ℚ) = (n : ℚ) := by
  have h : ((n : ℕ) : ℚ) = ((n : ℤ) : ℚ) := by push_cast; ring
  rw [h, pyRound2_intCast]

lemma updateFirst_of_forall_false (pred : Product → Bool) (f : Product → Product)
    (l : List Product) (h : ∀ x ∈ l, pred x = false) :
    updateFirst pred f l = l := by
  induction l with
  | nil => rfl
  | cons p ps ih =>
      have hp := h p (List.mem_cons_self p ps)
      simp only [updateFirst, hp, Bool.false_eq_true, if_false]
      rw [ih fun x hx => h x (List.mem_cons_of_mem p hx)]

lemma updateFirst_append (pred : Product → Bool) (f : Product → Product)
    (l1 l2 : List Product) (p : Product)
    (h1 : ∀ x ∈ l1, pred x = false) (hp : pred p = true) :
    updateFirst pred f (l1 ++ p :: l2) = l1 ++ f p :: l2 := by
  induction l1 with
  | nil => simp [updateFirst, hp]
  | cons q qs ih =>
      have hq := h1 q (List.mem_cons_self q qs)
      simp only [List.cons_append, updateFirst, hq, Bool.false_eq_true, if_false,
        List.append_eq]
      rw [ih fun x hx => h1 x (List.mem_cons_of_mem q hx)]

lemma findOrder_append_fresh (l : List OrderDoc) (d : OrderDoc) (n : Nat)
    (h : ∀ o ∈ l, o._id ≠ n) (hd : d._id = n) :
    findOrder (l ++ [d]) n = some d := by
  induction l with
  | nil => simp [findOrder, List.find?, hd]
  | cons o os ih =>
      have ho := h o (List.mem_cons_self o os)
      have ho' : (o._id == n) = false := by simpa using ho
      simp only [findOrder, List.cons_append, List.find?, ho']
      exact ih fun x hx => h x (List.mem_cons_of_mem o hx)

lemma condMatch_eq_false_of_ne (oid qty : Nat) (p : Product) (h : p._id ≠ oid) :
    condMatch oid qty p = false := by
  simp [condMatch, h]

lemma condMatch_eq_false_of_low (oid qty : Nat) (p : Product)
    (h : p.stock_qty < (qty : Int)) :
    condMatch oid qty p = false := by
  simp [condMatch]
  intro
  exact h

/-- create_order on a request passing total validation, written out. -/
lemma create_order_valid_eq (now : Nat) (order : OrderIn) (db : DB)
    (hval : pyRound2 (calcTotal order.items) = pyRound2 order.total) :
    create_order now order db =
      (Except.ok ((findOrder (db.orders ++ [newOrderDoc now order db.nextId])
          db.nextId).map orderToOut),
        { products := decrementAll now order.items db.products,
          orders := db.orders ++ [newOrderDoc now order db.nextId],
          nextId := db.nextId + 1 }) := by
  simp [create_order, hval]

/-- create_order on a request failing total validation, written out. -/
lemma create_order_invalid_eq (now : Nat) (order : OrderIn) (db : DB)
    (hval : pyRound2 (calcTotal order.items) ≠ pyRound2 order.total) :
    create_order now order db = (Except.error ⟨400, "Total mismatch"⟩, db) := by
  simp [create_order, hval]

/-! Concrete sample data used by the witness theorems. -/

/-- A well-formed 24-character hex ObjectId string. -/
def pid24 : String := "aaaaaaaaaaaaaaaaaaaaaaaa"

/-- A sample product with stock 10 whose id is the one encoded by pid24. -/
def prodW : Product :=
  { _id := 0xaaaaaaaaaaaaaaaaaaaaaaaa, title := "Laptop", description := none,
    price := 10, category := "Computers", image := none, in_stock := true,
    stock_qty := 10, created_at := 0, updated_at := 0 }

/-- A sample line item: 2 units at price 10, referencing pid24. -/
def itemW : OrderItem :=
  { product_id := pid24, title := "Laptop", price := 10, quantity := 2 }

/-- A line item whose product id is not a well-formed ObjectId. -/
def badItemW : OrderItem :=
  { product_id := "xyz", title := "Laptop", price := 10, quantity := 2 }

/-- A sample order request whose claimed total matches the computed one. -/
def orderW : OrderIn :=
  { user_email := "u@example.com", items := [itemW], total := 20 }

/-- The same items with a mismatching claimed total. -/
def orderM : OrderIn :=
  { user_email := "u@example.com", items := [itemW], total := 19 }

/-- A sample store state: one product, no orders, next id 0. -/
def dbW : DB := { products := [prodW], orders := [], nextId := 0 }

/-- The sample product with an odd stock of 5. -/
def prodHalf : Product := { prodW with stock_qty := 5 }

/-- A line item requesting 3 units, half of a stock of 5 rounded up. -/
def itemHalf : OrderItem :=
  { product_id := pid24, title := "Laptop", price := 10, quantity := 3 }

/-- A sample approved user with a plain stored password. -/
def userW : UserDoc :=
  { _id := 1, name := "Ann", email := "a@example.com", password := "pw",
    role := "customer", approved := true }

/-- A login request for userW with the wrong password. -/
def reqBadW : LoginReq := { email := "a@example.com", password := "bad" }

/-- A sample persisted order document. -/
def ordW : OrderDoc :=
  { _id := 0, user_email := "a@example.com", items := [], total := 0,
    status := "pending", created_at := 0, updated_at := 0 }

lemma calcTotal_itemW : calcTotal [itemW] = 20 := by
  simp [calcTotal, itemW]
  norm_num

lemma pyRound2_nat_lit (n : ℕ) : pyRound2 ((n : ℕ) : ℚ) = ((n : ℕ) : ℚ) :=
  pyRound2_natCast n

lemma hvalW : pyRound2 (calcTotal orderW.items) = pyRound2 orderW.total := by
  rw [show orderW.items = [itemW] from rfl, calcTotal_itemW,
    show orderW.total = (20 : ℚ) from rfl]

lemma hmisW : pyRound2 (calcTotal orderM.items) ≠ pyRound2 orderM.total := by
  rw [show orderM.items = [itemW] from rfl, calcTotal_itemW,
    show orderM.total = (19 : ℚ) from rfl,
    show (20 : ℚ) = ((20 : ℕ) : ℚ) by norm_num, pyRound2_natCast,
    show (19 : ℚ) = ((19 : ℕ) : ℚ) by norm_num, pyRound2_natCast]
  norm_num

/-! Claim theorems. -/

/-- C1: whenever create_order returns successfully, every order document in
the resulting store either was already there or satisfies the invariant
that its rounded total equals the rounded sum of price times quantity over
its items; a request violating the equation is never persisted (in that
case the store is returned unchanged). -/
theorem create_order_persists_only_total_consistent (now : Nat)
    (order : OrderIn) (db : DB) :
    ∀ d ∈ (create_order now order db).2.orders,
      d ∈ db.orders ∨ pyRound2 d.total = pyRound2 (calcTotal d.items) := by
  intro d hd
  by_cases h : pyRound2 (calcTotal order.items) = pyRound2 order.total
  · rw [create_order_valid_eq now order db h] at hd
    rcases List.mem_append.mp hd with h1 | h2
    · exact Or.inl h1
    · right
      have hde : d = newOrderDoc now order db.nextId := by simpa using h2
      subst hde
      simpa [newOrderDoc] using h.symm
  · rw [create_order_invalid_eq now order db h] at hd
    exact Or.inl hd

theorem create_order_persists_only_total_consistent_witness :
    newOrderDoc 7 orderW 0 ∈ dbW.orders ∨
      pyRound2 (newOrderDoc 7 orderW 0).total =
        pyRound2 (calcTotal (newOrderDoc 7 orderW 0).items) := by
  have hd : newOrderDoc 7 orderW 0 ∈ (create_order 7 orderW dbW).2.orders := by
    rw [create_order_valid_eq 7 orderW dbW hvalW]
    simp [dbW]
  exact create_order_persists_only_total_consistent 7 orderW dbW _ hd

/-- C2: when the rounded computed total differs from the rounded claimed
total, create_order fails with status 400 and detail Total mismatch, and
the store is completely unchanged: no stock decrement and no order
insertion happens. -/
theorem create_order_total_mismatch_rejected (now : Nat) (order : OrderIn)
    (db : DB)
    (h : pyRound2 (calcTotal order.items) ≠ pyRound2 order.total) :
    (create_order now order db).1 = Except.error ⟨400, "Total mismatch"⟩ ∧
    (create_order now order db).2 = db := by
  rw [create_order_invalid_eq now order db h]
  exact ⟨rfl, rfl⟩

theorem create_order_total_mismatch_rejected_witness :
    (create_order 7 orderM dbW).1 = Except.error ⟨400, "Total mismatch"⟩ ∧
    (create_order 7 orderM dbW).2 = dbW :=
  create_order_total_mismatch_rejected 7 orderM dbW hmisW

/-- C3: for an item whose product id parses and whose referenced product
(the unique document with that id) has stock_qty at least the requested
quantity at the time of the update, the conditional decrement of the loop
body applies exactly once: that product's stock_qty decreases by exactly
the quantity and its updated_at is set to now, no other field of the
product changes, and every other document is untouched. -/
theorem conditional_decrement_applies_exactly_once (now : Nat)
    (item : OrderItem) (oid : Nat) (l1 l2 : List Product) (p : Product)
    (hparse : parseObjectId item.product_id = some oid)
    (hl1 : ∀ x ∈ l1, x._id ≠ oid)
    (hid : p._id = oid)
    (hstock : (item.quantity : Int) ≤ p.stock_qty) :
    apply_dec now item (l1 ++ p :: l2) =
      l1 ++ { p with stock_qty := p.stock_qty - (item.quantity : Int),
                     updated_at := now } :: l2 := by
  unfold apply_dec
  rw [hparse]
  show updateFirst (condMatch oid item.quantity) (decProduct now item.quantity)
    (l1 ++ p :: l2) = _
  rw [updateFirst_append _ _ l1 l2 p
    (fun x hx => condMatch_eq_false_of_ne oid item.quantity x (hl1 x hx))
    (by simp [condMatch, hid, hstock])]
  rfl

theorem conditional_decrement_applies_exactly_once_witness :
    apply_dec 7 itemW ([] ++ prodW :: []) =
      [] ++ { prodW with stock_qty := prodW.stock_qty - (itemW.quantity : Int),
                         updated_at := 7 } :: [] :=
  conditional_decrement_applies_exactly_once 7 itemW 0xaaaaaaaaaaaaaaaaaaaaaaaa
    [] [] prodW rfl (by simp) rfl (by norm_num [itemW, prodW])

/-- C4: an item whose conditional update matches nothing (malformed
product id, or no document with that id and sufficient stock) leaves the
product store unchanged and is silently skipped; the loop goes on with
the next item keeping all earlier decrements (no rollback); and a request
passing total validation still produces a successful create_order with
exactly the one new order document appended. -/
theorem failed_item_skipped_order_still_created (now : Nat)
    (item : OrderItem) (ps : List Product) (order : OrderIn) (db : DB) :
    (parseObjectId item.product_id = none → apply_dec now item ps = ps) ∧
    (∀ oid, parseObjectId item.product_id = some oid →
      (∀ p ∈ ps, condMatch oid item.quantity p = false) →
      apply_dec now item ps = ps) ∧
    (∀ pre : List OrderItem,
      apply_dec now item (decrementAll now pre ps) = decrementAll now pre ps →
      decrementAll now (pre ++ [item]) ps = decrementAll now pre ps) ∧
    (pyRound2 (calcTotal order.items) = pyRound2 order.total →
      ∃ r, (create_order now order db).1 = Except.ok r ∧
        (create_order now order db).2.orders =
          db.orders ++ [newOrderDoc now order db.nextId]) := by
  refine ⟨?_, ?_, ?_, ?_⟩
  · intro h
    unfold apply_dec
    rw [h]
  · intro oid hp hall
    unfold apply_dec
    rw [hp]
    exact updateFirst_of_forall_false _ _ ps hall
  · intro pre h
    simp only [decrementAll, List.foldl_append, List.foldl_cons, List.foldl_nil]
    exact h
  · intro hval
    rw [create_order_valid_eq now order db hval]
    exact ⟨_, rfl, rfl⟩

theorem failed_item_skipped_order_still_created_witness :
    apply_dec 7 badItemW [prodW] = [prodW] ∧
    (∃ r, (create_order 7 orderW dbW).1 = Except.ok r ∧
      (create_order 7 orderW dbW).2.orders =
        dbW.orders ++ [newOrderDoc 7 orderW dbW.nextId]) :=
  ⟨(failed_item_skipped_order_still_created 7 badItemW [prodW] orderW dbW).1 rfl,
    (failed_item_skipped_order_still_created 7 badItemW [prodW] orderW
      dbW).2.2.2 hvalW⟩

/-- C5: a request passing total validation leads to exactly one new order
document, with status pending and created_at equal to updated_at (both
now), and create_order returns that persisted record rendered by
oid_to_str: the generated identifier exposed as the string field id and
both timestamps rendered through isoformat. The freshness hypothesis
says the generated id is not already present, as the store guarantees. -/
theorem validated_order_persisted_pending_and_returned (now : Nat)
    (order : OrderIn) (db : DB)
    (hval : pyRound2 (calcTotal order.items) = pyRound2 order.total)
    (hfresh : ∀ o ∈ db.orders, o._id ≠ db.nextId) :
    (create_order now order db).2.orders =
        db.orders ++ [newOrderDoc now order db.nextId] ∧
    (newOrderDoc now order db.nextId).status = "pending" ∧
    (newOrderDoc now order db.nextId).created_at =
      (newOrderDoc now order db.nextId).updated_at ∧
    (create_order now order db).1 =
      Except.ok (some (orderToOut (newOrderDoc now order db.nextId))) ∧
    orderToOut (newOrderDoc now order db.nextId) =
      { id := oidStr db.nextId, user_email := order.user_email,
        items := order.items, total := order.total, status := "pending",
        created_at := isoformat now, updated_at := isoformat now } := by
  have hfind : findOrder (db.orders ++ [newOrderDoc now order db.nextId])
      db.nextId = some (newOrderDoc now order db.nextId) :=
    findOrder_append_fresh db.orders _ db.nextId hfresh rfl
  rw [create_order_valid_eq now order db hval]
  refine ⟨rfl, rfl, rfl, ?_, rfl⟩
  show Except.ok ((findOrder (db.orders ++ [newOrderDoc now order db.nextId])
      db.nextId).map orderToOut) = _
  rw [hfind]
  rfl

theorem validated_order_persisted_pending_and_returned_witness :
    (create_order 7 orderW dbW).2.orders =
        dbW.orders ++ [newOrderDoc 7 orderW dbW.nextId] ∧
    (newOrderDoc 7 orderW dbW.nextId).status = "pending" ∧
    (newOrderDoc 7 orderW dbW.nextId).created_at =
      (newOrderDoc 7 orderW dbW.nextId).updated_at ∧
    (create_order 7 orderW dbW).1 =
      Except.ok (some (orderToOut (newOrderDoc 7 orderW dbW.nextId))) ∧
    orderToOut (newOrderDoc 7 orderW dbW.nextId) =
      { id := oidStr dbW.nextId, user_email := orderW.user_email,
        items := orderW.items, total := orderW.total, status := "pending",
        created_at := isoformat 7, updated_at := isoformat 7 } :=
  validated_order_persisted_pending_and_returned 7 orderW dbW hvalW
    (by simp [dbW])

/-- C6: create_order is not idempotent: two successive calls with the
identical valid request body both succeed and insert two independent
order documents, whose generated identifiers are distinct. -/
theorem create_order_not_idempotent (now1 now2 : Nat) (order : OrderIn)
    (db : DB)
    (hval : pyRound2 (calcTotal order.items) = pyRound2 order.total) :
    (∃ r1, (create_order now1 order db).1 = Except.ok r1) ∧
    (∃ r2, (create_order now2 order
      (create_order now1 order db).2).1 = Except.ok r2) ∧
    (create_order now2 order (create_order now1 order db).2).2.orders =
      db.orders ++ [newOrderDoc now1 order db.nextId,
        newOrderDoc now2 order (db.nextId + 1)] ∧
    (newOrderDoc now1 order db.nextId)._id ≠
      (newOrderDoc now2 order (db.nextId + 1))._id := by
  rw [create_order_valid_eq now1 order db hval]
  rw [create_order_valid_eq now2 order _ hval]
  refine ⟨⟨_, rfl⟩, ⟨_, rfl⟩, ?_, ?_⟩
  · simp
  · simp [newOrderDoc]

theorem create_order_not_idempotent_witness :
    (∃ r1, (create_order 7 orderW dbW).1 = Except.ok r1) ∧
    (∃ r2, (create_order 8 orderW
      (create_order 7 orderW dbW).2).1 = Except.ok r2) ∧
    (create_order 8 orderW (create_order 7 orderW dbW).2).2.orders =
      dbW.orders ++ [newOrderDoc 7 orderW dbW.nextId,
        newOrderDoc 8 orderW (dbW.nextId + 1)] ∧
    (newOrderDoc 7 orderW dbW.nextId)._id ≠
      (newOrderDoc 8 orderW (dbW.nextId + 1))._id :=
  create_order_not_idempotent 7 8 orderW dbW hvalW

/-- C7: login verifies credentials by direct plain string comparison of
the stored password with the submitted one: it succeeds exactly when a
user document with the given email exists, its stored password string
equals the submitted password, and the user is approved; when no such
user exists, or the passwords differ, it fails with 401 Invalid
credentials. -/
theorem login_plaintext_credential_comparison (req : LoginReq)
    (users : List UserDoc) :
    ((∃ out, login req users = Except.ok out) ↔
      ∃ u, findUser users req.email = some u ∧
        u.password = req.password ∧ u.approved = true) ∧
    (findUser users req.email = none →
      login req users = Except.error ⟨401, "Invalid credentials"⟩) ∧
    (∀ u, findUser users req.email = some u → u.password ≠ req.password →
      login req users = Except.error ⟨401, "Invalid credentials"⟩) := by
  refine ⟨⟨?_, ?_⟩, ?_, ?_⟩
  · rintro ⟨out, hout⟩
    cases hfind : findUser users req.email with
    | none => simp [login, hfind] at hout
    | some u =>
        by_cases hpw : u.password = req.password
        · by_cases happ : u.approved = true
          · exact ⟨u, rfl, hpw, happ⟩
          · simp [login, hfind, hpw, happ] at hout
        · simp [login, hfind, hpw] at hout
  · rintro ⟨u, hfind, hpw, happ⟩
    refine ⟨{ email := u.email, name := u.name, role := u.role,
              approved := true }, ?_⟩
    simp [login, hfind, hpw, happ]
  · intro hfind
    simp [login, hfind]
  · intro u hfind hpw
    simp [login, hfind, hpw]

theorem login_plaintext_credential_comparison_witness :
    login reqBadW [userW] = Except.error ⟨401, "Invalid credentials"⟩ :=
  (login_plaintext_credential_comparison reqBadW [userW]).2.2 userW rfl
    (by decide)

/-- C8: when two order submissions each request quantity q of the same
product and the combined quantity 2q exceeds the available stock, at
most one of the two conditional decrements applies: since each
decrement-if-sufficient is a single atomic store operation, any
interleaving of the two requests is one of the two sequential orders,
and after the first conditional update the second one matches no
document, leaving the store exactly as after the first. -/
theorem concurrent_half_stock_at_most_one_decrement (now1 now2 : Nat)
    (item1 item2 : OrderItem) (oid : Nat) (l1 l2 : List Product)
    (p : Product) (q : Nat)
    (h1 : parseObjectId item1.product_id = some oid)
    (h2 : parseObjectId item2.product_id = some oid)
    (hq1 : item1.quantity = q) (hq2 : item2.quantity = q)
    (hl1 : ∀ x ∈ l1, x._id ≠ oid) (hl2 : ∀ x ∈ l2, x._id ≠ oid)
    (hid : p._id = oid)
    (hover : p.stock_qty < 2 * (q : Int)) :
    apply_dec now2 item2 (apply_dec now1 item1 (l1 ++ p :: l2)) =
      apply_dec now1 item1 (l1 ++ p :: l2) := by
  by_cases hs : (q : Int) ≤ p.stock_qty
  · have hfirst : apply_dec now1 item1 (l1 ++ p :: l2) =
        l1 ++ decProduct now1 item1.quantity p :: l2 := by
      unfold apply_dec
      rw [h1]
      show updateFirst (condMatch oid item1.quantity)
        (decProduct now1 item1.quantity) (l1 ++ p :: l2) = _
      exact updateFirst_append _ _ l1 l2 p
        (fun x hx => condMatch_eq_false_of_ne oid item1.quantity x (hl1 x hx))
        (by simp [condMatch, hid, hq1, hs])
    rw [hfirst]
    unfold apply_dec
    rw [h2]
    show updateFirst (condMatch oid item2.quantity)
      (decProduct now2 item2.quantity) _ = _
    apply updateFirst_of_forall_false
    intro x hx
    rcases List.mem_append.mp hx with hx1 | hx2
    · exact condMatch_eq_false_of_ne oid item2.quantity x (hl1 x hx1)
    · rcases List.mem_cons.mp hx2 with hxe | hx2'
      · subst hxe
        apply condMatch_eq_false_of_low
        simp only [decProduct, hq1, hq2]
        omega
      · exact condMatch_eq_false_of_ne oid item2.quantity x (hl2 x hx2')
  · have hall : ∀ qty : Nat, qty = q →
        ∀ x ∈ l1 ++ p :: l2, condMatch oid qty x = false := by
      intro qty hqty x hx
      rcases List.mem_append.mp hx with hx1 | hx2
      · exact condMatch_eq_false_of_ne oid qty x (hl1 x hx1)
      · rcases List.mem_cons.mp hx2 with hxe | hx2'
        · subst hxe
          apply condMatch_eq_false_of_low
          omega
        · exact condMatch_eq_false_of_ne oid qty x (hl2 x hx2')
    have hfirst : apply_dec now1 item1 (l1 ++ p :: l2) = l1 ++ p :: l2 := by
      unfold apply_dec
      rw [h1]
      exact updateFirst_of_forall_false _ _ _ (hall item1.quantity hq1)
    rw [hfirst]
    unfold apply_dec
    rw [h2]
    exact updateFirst_of_forall_false _ _ _ (hall item2.quantity hq2)

theorem concurrent_half_stock_at_most_one_decrement_witness :
    apply_dec 8 itemHalf (apply_dec 7 itemHalf ([] ++ prodHalf :: [])) =
      apply_dec 7 itemHalf ([] ++ prodHalf :: []) :=
  concurrent_half_stock_at_most_one_decrement 7 8 itemHalf itemHalf
    0xaaaaaaaaaaaaaaaaaaaaaaaa [] [] prodHalf 3
    rfl rfl rfl rfl (by simp) (by simp) rfl (by norm_num [prodHalf, prodW])

/-- C9: delete_product never surfaces a 404: with the admin header set,
every failure is the 400 Invalid-product-id error, because the 404
HTTPException raised on deleted_count zero is itself caught by the
surrounding generic except handler and replaced; in particular a
well-formed id matching no document yields the 400, and no call with any
header yields a 404 status. -/
theorem delete_product_errors_are_400 (product_id : String)
    (products : List Product) :
    (∀ x e, (delete_product product_id x products).1 = Except.error e →
      e.status ≠ 404) ∧
    (∀ e, (delete_product product_id (some ("true")) products).1 =
        Except.error e → e = ⟨400, "Invalid product id"⟩) ∧
    (∀ oid, parseObjectId product_id = some oid →
      (∀ p ∈ products, p._id ≠ oid) →
      (delete_product product_id (some ("true")) products).1 =
        Except.error ⟨400, "Invalid product id"⟩) := by
  have hbody : ∀ e, (delete_product product_id (some ("true")) products).1 =
      Except.error e → e = ⟨400, "Invalid product id"⟩ := by
    intro e h
    cases hp : parseObjectId product_id with
    | none =>
        simp [delete_product, hp] at h
        exact h.symm
    | some oid =>
        by_cases hm : anyMatch (fun p => p._id == oid) products
        · simp [delete_product, hp, hm] at h
        · simp [delete_product, hp, hm] at h
          exact h.symm
  refine ⟨?_, hbody, ?_⟩
  · intro x e h
    by_cases hx : x = some ("true")
    · subst hx
      have := hbody e h
      subst this
      decide
    · rw [show delete_product product_id x products =
          (Except.error ⟨403, "Admin access required"⟩, products)
        from by simp [delete_product, hx]] at h
      have : (⟨403, "Admin access required"⟩ : HErr) = e := by simpa using h
      subst this
      decide
  · intro oid hp hnone
    have hm : anyMatch (fun p => p._id == oid) products = false := by
      simp [anyMatch]
      intro p hpmem
      exact hnone p hpmem
    simp [delete_product, hp, hm]

theorem delete_product_errors_are_400_witness :
    (delete_product pid24 (some ("true")) []).1 =
      Except.error ⟨400, "Invalid product id"⟩ :=
  (delete_product_errors_are_400 pid24 []).2.2 0xaaaaaaaaaaaaaaaaaaaaaaaa
    rfl (by simp)

/-- C10: list_orders applies the user_email filter only when an email
parameter is supplied: with no email every order is returned whatever
the admin header is; with an email and the admin header equal to true
every order is still returned; and with an email and a non-admin header
exactly the orders with that user_email are returned. -/
theorem list_orders_filters_only_with_email (email x_admin : Option String)
    (orders : List OrderDoc) :
    (list_orders none x_admin orders = orders.map orderToOut) ∧
    (x_admin = some ("true") →
      list_orders email x_admin orders = orders.map orderToOut) ∧
    (∀ e, email = some e → x_admin ≠ some ("true") →
      list_orders email x_admin orders =
        (orders.filter (fun o => o.user_email == e)).map orderToOut) := by
  refine ⟨rfl, ?_, ?_⟩
  · intro hx
    subst hx
    cases email with
    | none => rfl
    | some e => simp [list_orders]
  · intro e he hx
    subst he
    simp [list_orders, hx]

theorem list_orders_filters_only_with_email_witness :
    list_orders none (some ("true")) [ordW] = [ordW].map orderToOut ∧
    list_orders (some ("a@example.com")) none [ordW] =
      ([ordW].filter (fun o => o.user_email == "a@example.com")).map
        orderToOut :=
  ⟨(list_orders_filters_only_with_email none (some ("true")) [ordW]).1,
    (list_orders_filters_only_with_email (some ("a@example.com")) none
        [ordW]).2.2 "a@example.com" rfl (by decide)⟩

end ByteRize
